import Mathlib

/-!
Verification of the viewport transform engine of the poster-session map
(`src/assets/js/script.js`, class `PosterSessionMap`).

The JavaScript numeric state is shallowly embedded over `ℚ`: every arithmetic
operation used by the pan/zoom/pinch code (`+ - * /`, `Math.min`, `Math.max`)
is exact on rationals, so the rational model reproduces the ideal real-number
semantics of the source.  The inertia loop additionally uses
`Math.pow(decay, dt / 16)` with a fractional exponent, so that single
component is embedded over `ℝ` with real exponentiation.

Non-finite IEEE inputs (`NaN`, produced by malformed touch events) are
modelled by `JSNum := Option ℚ`, with `none` standing for a non-finite value;
the JavaScript arithmetic operators propagate non-finiteness, and
`Number.isFinite` is the `Option.isSome` test.
-/

namespace PosterMap

/-- Embeds `this.baseWidth` (constructor). -/
def baseWidth : ℚ := 1150

/-- Embeds `this.baseHeight` (constructor). -/
def baseHeight : ℚ := 1360

/-- Embeds `const clamp = (value, min, max) => Math.min(Math.max(value, min), max)`. -/
def clampQ (value lo hi : ℚ) : ℚ := min (max value lo) hi

/-- Result of `getViewBox()`. -/
structure ViewBox where
  x : ℚ
  y : ℚ
  width : ℚ
  height : ℚ
  deriving DecidableEq

/-- Embeds `getBoundingClientRect()` of the SVG element. -/
structure Rect where
  left : ℚ
  top : ℚ
  width : ℚ
  height : ℚ
  deriving DecidableEq

/--
The mutable interaction state: the `PosterSessionMap` fields touched by the
pan/zoom/pinch code together with the closure variables of
`initializeEventListeners` (`isPanning`, `startX`, ..., `pinchActive`, ...).
Default values are the constructor / closure initialisers.  Animation-frame
handles (`panInertiaFrame`, `panAnimationFrame`) are modelled as the Boolean
"a frame is scheduled"; the `panAnimationComplete` callback as the Boolean
"a callback is stored"; `panInputType` being the touch kind as `isTouchInput`.
-/
structure MapState where
  currentZoom : ℚ := 1
  minZoom : ℚ := 1
  maxZoom : ℚ := 8
  panX : ℚ := -60
  panY : ℚ := 0
  panVelocityX : ℚ := 0
  panVelocityY : ℚ := 0
  panInertiaFrame : Bool := false
  panAnimationFrame : Bool := false
  panAnimationComplete : Bool := false
  isMultiTouchGesture : Bool := false
  isPanning : Bool := false
  startX : ℚ := 0
  startY : ℚ := 0
  initialPanX : ℚ := 0
  initialPanY : ℚ := 0
  lastPointerX : ℚ := 0
  lastPointerY : ℚ := 0
  lastPointerTime : ℚ := 0
  pinchActive : Bool := false
  pinchStartDistance : ℚ := 0
  pinchStartZoom : ℚ := 1
  isTouchInput : Bool := false
  currentPanMultiplier : ℚ := 1
  deriving DecidableEq

/-- A concrete state with given zoom and pan, other fields at their
constructor defaults, used to instantiate theorems on concrete inputs. -/
def mkState (zoom panX panY : ℚ) : MapState :=
  { currentZoom := zoom, panX := panX, panY := panY }

/--
Embeds `getViewBox()`:
`width = baseWidth / currentZoom`, `height = baseHeight / currentZoom`,
`x = -panX + (baseWidth - width) / 2`, `y = -panY + (baseHeight - height) / 2`.
-/
def getViewBox (s : MapState) : ViewBox :=
  let width := baseWidth / s.currentZoom
  let height := baseHeight / s.currentZoom
  { x := -s.panX + (baseWidth - width) / 2
    y := -s.panY + (baseHeight - height) / 2
    width := width
    height := height }

/-- Embeds `getPanSpeedMultiplier()`. -/
def getPanSpeedMultiplier (s : MapState) : ℚ :=
  let zoomRange := max (s.maxZoom - s.minZoom) 0.0001
  let normalized := (s.currentZoom - s.minZoom) / zoomRange
  1 + normalized * (3 - 1)

/-- Embeds `stopPanInertia(resetVelocity)`: cancel the scheduled inertia frame and,
when requested, zero the velocity. -/
def stopPanInertia (s : MapState) (resetVelocity : Bool) : MapState :=
  let s1 := { s with panInertiaFrame := false }
  if resetVelocity then { s1 with panVelocityX := 0, panVelocityY := 0 } else s1

/-- Embeds `stopPanAnimation()`: cancel the scheduled centering frame and drop the
completion callback. -/
def stopPanAnimation (s : MapState) : MapState :=
  { s with panAnimationFrame := false, panAnimationComplete := false }

/-- The `this.stopPanInertia(true); this.stopPanAnimation();` pair that every
gesture entry point runs, named `stopAllMotion` in the specification. -/
def stopAllMotion (s : MapState) : MapState :=
  stopPanAnimation (stopPanInertia s true)

/-- Embeds `velocityConfig.max` (0.75 px per ms). -/
def velocityMax : ℚ := 0.75

/-- Embeds `velocityConfig.smoothing`. -/
def velocitySmoothing : ℚ := 0.22

/-- Embeds `velocityConfig.flickMultiplier`. -/
def flickMultiplier : ℚ := 1.1

/-- Embeds `velocityConfig.flickWindowMs`. -/
def flickWindowMs : ℚ := 35

/-- Embeds `velocityConfig.flickMax`. -/
def flickMax : ℚ := 0.9

/-- Embeds `TOUCH_PAN_MULTIPLIER`. -/
def touchPanMultiplier : ℚ := 1.4

/-- Embeds `minVelocity` of `startPanInertia()`. -/
def minPanVelocity : ℚ := 0.0012

/-- Embeds `recordVelocity(clientX, clientY)` with `performance.now()` passed in as
`now`.  The `if (lastPointerTime)` truthiness test is `lastPointerTime ≠ 0`. -/
def recordVelocity (s : MapState) (clientX clientY now : ℚ) : MapState :=
  let s1 :=
    if s.lastPointerTime ≠ 0 then
      let deltaTime := now - s.lastPointerTime
      if 0 < deltaTime then
        let appliedMultiplier := getPanSpeedMultiplier s * s.currentPanMultiplier
        let deltaPanX := ((clientX - s.lastPointerX) / s.currentZoom) * appliedMultiplier
        let deltaPanY := ((clientY - s.lastPointerY) / s.currentZoom) * appliedMultiplier
        let vx := deltaPanX / deltaTime
        let vy := deltaPanY / deltaTime
        { s with
          panVelocityX := (1 - velocitySmoothing) * s.panVelocityX +
            velocitySmoothing * max (-velocityMax) (min velocityMax vx)
          panVelocityY := (1 - velocitySmoothing) * s.panVelocityY +
            velocitySmoothing * max (-velocityMax) (min velocityMax vy) }
      else s
    else s
  { s1 with lastPointerX := clientX, lastPointerY := clientY, lastPointerTime := now }

/-- Embeds `beginPan(clientX, clientY, inputType)`; `isTouch` is
`inputType` being the touch kind and `now` is the `performance.now()` read inside the
trailing `recordVelocity` call. -/
def beginPan (s : MapState) (clientX clientY : ℚ) (isTouch : Bool) (now : ℚ) : MapState :=
  let s1 := { s with
    isPanning := true
    isTouchInput := isTouch
    currentPanMultiplier := if isTouch then touchPanMultiplier else 1
    startX := clientX
    startY := clientY
    initialPanX := s.panX
    initialPanY := s.panY }
  let s2 := stopPanAnimation (stopPanInertia s1 true)
  let s3 := { s2 with lastPointerTime := 0, lastPointerX := clientX, lastPointerY := clientY }
  recordVelocity s3 clientX clientY now

/-- Embeds `updatePan(clientX, clientY)` (callers guard it with `isPanning`). -/
def updatePan (s : MapState) (clientX clientY now : ℚ) : MapState :=
  let appliedMultiplier := getPanSpeedMultiplier s * s.currentPanMultiplier
  let dx := ((clientX - s.startX) / s.currentZoom) * appliedMultiplier
  let dy := ((clientY - s.startY) / s.currentZoom) * appliedMultiplier
  recordVelocity
    { s with panX := s.initialPanX + dx, panY := s.initialPanY + dy }
    clientX clientY now

/-- Embeds `startPanInertia()`.  The source guard is
`Math.hypot(panVelocityX, panVelocityY) < minVelocity`; it is stated here on
squares (`hypot v < c ↔ vx² + vy² < c²` for `c > 0`) to stay inside `ℚ`. -/
def startPanInertia (s : MapState) : MapState :=
  if s.panVelocityX ^ 2 + s.panVelocityY ^ 2 < minPanVelocity ^ 2 then
    stopPanInertia s true
  else
    { stopPanInertia s false with panInertiaFrame := true }

/-- Embeds `endPan(options)`; `now` is the `performance.now()` read for the flick
window test.  `sinceLastSample` is `Infinity` when `lastPointerTime` is 0, so
the flick branch requires `lastPointerTime ≠ 0`. -/
def endPan (s : MapState) (now : ℚ) (skipInertia : Bool) : MapState :=
  if s.isPanning = false then s
  else
    let s1 := { s with isPanning := false, isTouchInput := false, currentPanMultiplier := 1 }
    if skipInertia then s1
    else
      let s2 :=
        if s1.lastPointerTime ≠ 0 ∧ now - s1.lastPointerTime ≤ flickWindowMs then
          { s1 with
            panVelocityX := max (-flickMax) (min flickMax (s1.panVelocityX * flickMultiplier))
            panVelocityY := max (-flickMax) (min flickMax (s1.panVelocityY * flickMultiplier)) }
        else s1
      startPanInertia s2

/-- Embeds `startPinch(touches)`; `dist` is `getTouchDistance(touches[0], touches[1])`
and `getTouchDistance(...) || 0.0001` is the zero test on `dist`. -/
def startPinch (s : MapState) (dist : ℚ) : MapState :=
  let s1 := stopPanAnimation (stopPanInertia s true)
  { s1 with
    isPanning := false
    pinchActive := true
    pinchStartDistance := if dist = 0 then 0.0001 else dist
    pinchStartZoom := s1.currentZoom
    isMultiTouchGesture := true }

/-- The `touchCount >= 2` branch of `touchStartHandler`: set
`isMultiTouchGesture` and start the pinch. -/
def touchStartTwoFingers (s : MapState) (dist : ℚ) : MapState :=
  startPinch { s with isMultiTouchGesture := true } dist

/-- Embeds `nextViewWidth` in `updatePanForPinch`. -/
def nextViewW (targetZoom : ℚ) : ℚ := baseWidth / targetZoom

/-- Embeds `nextViewHeight` in `updatePanForPinch`. -/
def nextViewH (targetZoom : ℚ) : ℚ := baseHeight / targetZoom

/-- Embeds `maxViewX = Math.max(minViewX, baseWidth - nextViewWidth)` with
`minViewX = 0`. -/
def pinchMaxViewX (targetZoom : ℚ) : ℚ := max 0 (baseWidth - nextViewW targetZoom)

/-- Embeds `maxViewY = Math.max(minViewY, baseHeight - nextViewHeight)` with
`minViewY = 0`. -/
def pinchMaxViewY (targetZoom : ℚ) : ℚ := max 0 (baseHeight - nextViewH targetZoom)

/-- Embeds `fractionX = clamp((centerClientX - rect.left) / rect.width, 0, 1)`. -/
def pinchFractionX (rect : Rect) (centerClientX : ℚ) : ℚ :=
  clampQ ((centerClientX - rect.left) / rect.width) 0 1

/-- Embeds `fractionY = clamp((centerClientY - rect.top) / rect.height, 0, 1)`. -/
def pinchFractionY (rect : Rect) (centerClientY : ℚ) : ℚ :=
  clampQ ((centerClientY - rect.top) / rect.height) 0 1

/-- Embeds `desiredViewX = mapCenterX - fractionX * nextViewWidth` where
`mapCenterX = viewX + viewWidth * fractionX` from the current view box. -/
def pinchDesiredViewX (s : MapState) (rect : Rect) (targetZoom centerClientX : ℚ) : ℚ :=
  (getViewBox s).x + (getViewBox s).width * pinchFractionX rect centerClientX -
    pinchFractionX rect centerClientX * nextViewW targetZoom

/-- Embeds `desiredViewY = mapCenterY - fractionY * nextViewHeight` where
`mapCenterY = viewY + viewHeight * fractionY` from the current view box. -/
def pinchDesiredViewY (s : MapState) (rect : Rect) (targetZoom centerClientY : ℚ) : ℚ :=
  (getViewBox s).y + (getViewBox s).height * pinchFractionY rect centerClientY -
    pinchFractionY rect centerClientY * nextViewH targetZoom

/-- Embeds `updatePanForPinch(targetZoom, centerClientX, centerClientY)`; `rect` is
the client rectangle of the SVG (the `!rect` case is a degenerate rectangle). -/
def updatePanForPinch (s : MapState) (rect : Rect) (targetZoom centerClientX centerClientY : ℚ) :
    MapState :=
  if rect.width = 0 ∨ rect.height = 0 then { s with currentZoom := targetZoom }
  else
    let clampedViewX := clampQ (pinchDesiredViewX s rect targetZoom centerClientX) 0
      (pinchMaxViewX targetZoom)
    let clampedViewY := clampQ (pinchDesiredViewY s rect targetZoom centerClientY) 0
      (pinchMaxViewY targetZoom)
    { s with
      currentZoom := targetZoom
      panX := (baseWidth - nextViewW targetZoom) / 2 - clampedViewX
      panY := (baseHeight - nextViewH targetZoom) / 2 - clampedViewY }

/-- Embeds `handlePinchMove(touches)` given the finger distance `dist` and midpoint
`(mx, my)`; the caller guarantees two touches.  The `!distance` guard is the
zero test here (the non-finite case is `handlePinchMoveJS`). -/
def handlePinchMove (s : MapState) (rect : Rect) (dist mx my : ℚ) : MapState :=
  if s.pinchActive = false ∨ s.pinchStartDistance = 0 ∨ dist = 0 then s
  else
    let scale := dist / s.pinchStartDistance
    let adjustedScale := 1 + (scale - 1) * 2
    let targetZoom := clampQ (s.pinchStartZoom * adjustedScale) s.minZoom s.maxZoom
    updatePanForPinch s rect targetZoom mx my

/-- The wheel handler zoom mutation (after `normalizedDelta ≠ 0`):
`newZoom = Math.min(maxZoom, Math.max(minZoom, currentZoom * zoomFactor))`.
`zoomFactor` stands for `Math.exp(-normalizedDelta * intensity)`, an arbitrary
positive real, passed in as a parameter; the source assigns `currentZoom` only
when the value changed, which is the same state either way. -/
def wheelZoom (s : MapState) (zoomFactor : ℚ) : MapState :=
  let s1 := stopPanInertia s true
  { s1 with currentZoom := min s1.maxZoom (max s1.minZoom (s1.currentZoom * zoomFactor)) }

/-- Embeds `zoomIn()`. -/
def zoomIn (s : MapState) : MapState :=
  let s1 := stopPanAnimation (stopPanInertia s true)
  { s1 with currentZoom := min s1.maxZoom (s1.currentZoom * 1.2) }

/-- Embeds `zoomOut()`. -/
def zoomOut (s : MapState) : MapState :=
  let s1 := stopPanAnimation (stopPanInertia s true)
  { s1 with currentZoom := max s1.minZoom (min s1.maxZoom (s1.currentZoom / 1.2)) }

/-- A JavaScript number: `some q` is a finite value, `none` a non-finite one
(`NaN`, or an infinity produced by overflow or division by zero). -/
def JSNum := Option ℚ

instance : DecidableEq JSNum :=
  inferInstanceAs (DecidableEq (Option ℚ))

/-- Subtraction on JavaScript numbers: non-finiteness propagates. -/
def jsSub : JSNum → JSNum → JSNum
  | some a, some b => some (a - b)
  | _, _ => none

/-- Addition on JavaScript numbers: non-finiteness propagates. -/
def jsAdd : JSNum → JSNum → JSNum
  | some a, some b => some (a + b)
  | _, _ => none

/-- Multiplication on JavaScript numbers: non-finiteness propagates. -/
def jsMul : JSNum → JSNum → JSNum
  | some a, some b => some (a * b)
  | _, _ => none

/-- Division on JavaScript numbers: non-finiteness propagates, and dividing by
zero yields a non-finite value. -/
def jsDiv : JSNum → JSNum → JSNum
  | some a, some b => if b = 0 then none else some (a / b)
  | _, _ => none

/-- Embeds `updatePan` over JavaScript numbers, for pointer coordinates that may be
non-finite: the source performs no finiteness validation, so
`panX = initialPanX + ((clientX - startX) / currentZoom) * appliedMultiplier`
is computed unconditionally.  Returns the new `(panX, panY)`. -/
def updatePanJS (startX startY initialPanX initialPanY zoom appliedMultiplier : ℚ)
    (clientX clientY : JSNum) : JSNum × JSNum :=
  (jsAdd (some initialPanX)
    (jsMul (jsDiv (jsSub clientX (some startX)) (some zoom)) (some appliedMultiplier)),
   jsAdd (some initialPanY)
    (jsMul (jsDiv (jsSub clientY (some startY)) (some zoom)) (some appliedMultiplier)))

/-- Embeds `handlePinchMove` fed a finger distance that may be non-finite
(`Math.hypot` of `NaN` client coordinates): the `if (!distance) return;`
guard rejects both `NaN` and `0`. -/
def handlePinchMoveJS (s : MapState) (rect : Rect) (dist : JSNum) (mx my : ℚ) : MapState :=
  match dist with
  | none => s
  | some d => handlePinchMove s rect d mx my

/-- Embeds `calculatePanForCoordinates(x, y, focus)`; a focus component is `none`
when absent or non-finite (`clampFraction` then yields `0.5`). -/
def calculatePanForCoordinates (s : MapState) (x y : ℚ) (focus : Option ℚ × Option ℚ) :
    ℚ × ℚ :=
  let width := baseWidth / s.currentZoom
  let height := baseHeight / s.currentZoom
  let maxX := max 0 (baseWidth - width)
  let maxY := max 0 (baseHeight - height)
  let clampFraction : Option ℚ → ℚ := fun v =>
    match v with
    | none => 0.5
    | some w => min (max w 0) 1
  let focusX := clampFraction focus.1
  let focusY := clampFraction focus.2
  let desiredX := x - width * focusX
  let desiredY := y - height * focusY
  ((baseWidth - width) / 2 - min (max desiredX 0) maxX,
   (baseHeight - height) / 2 - min (max desiredY 0) maxY)

/-- Embeds `centerOnCoordinates(x, y, options)` on the instant path
(`animate = false`): the `Number.isFinite` guard on the target coordinates,
the `minZoom` option bump (a present option value is a finite number), the
stop calls, and the pan assignment.  The mobile media-query default-zoom
branch is environment-dependent and outside this model (desktop media state).
-/
def centerOnCoordinates (s : MapState) (x y : JSNum) (minZoomOpt : Option ℚ)
    (focus : Option ℚ × Option ℚ) : MapState :=
  match x, y with
  | some xv, some yv =>
    let s1 :=
      match minZoomOpt with
      | some m => { s with currentZoom := min s.maxZoom (max s.currentZoom m) }
      | none => s
    let s2 := stopPanAnimation (stopPanInertia s1 true)
    let target := calculatePanForCoordinates s2 xv yv focus
    { s2 with panX := target.1, panY := target.2 }
  | _, _ => s

/-- The state of the animation loop of `startPanInertia`, over `ℝ` because the
per-frame decay is `Math.pow(0.93, dt / 16)` with a fractional exponent.
`active = false` is the idle state after `stopPanInertia(true)`. -/
structure InertiaState where
  vx : ℝ
  vy : ℝ
  panX : ℝ
  panY : ℝ
  active : Bool

/-- Embeds `decay` in `startPanInertia()`. -/
def inertiaDecay : ℝ := 0.93

/-- Embeds `minVelocity` in `startPanInertia()`. -/
def inertiaMinVelocity : ℝ := 0.0012

/-- One frame of the `step` closure of `startPanInertia()`: apply the velocity
to the pan over the elapsed `dt`, decay the velocity by `0.93 ^ (dt / 16)`,
and stop (velocity reset to zero, loop idle) once
`Math.hypot(vx, vy) < minVelocity`.  A stopped loop runs no further frames, so
the step is the identity on an inactive state. -/
noncomputable def inertiaStep (dt : ℝ) (s : InertiaState) : InertiaState :=
  if s.active then
    if Real.sqrt ((s.vx * inertiaDecay ^ (dt / 16)) ^ 2 +
        (s.vy * inertiaDecay ^ (dt / 16)) ^ 2) < inertiaMinVelocity then
      { vx := 0, vy := 0, panX := s.panX + s.vx * dt, panY := s.panY + s.vy * dt,
        active := false }
    else
      { vx := s.vx * inertiaDecay ^ (dt / 16), vy := s.vy * inertiaDecay ^ (dt / 16),
        panX := s.panX + s.vx * dt, panY := s.panY + s.vy * dt, active := true }
  else s

/-- The inertia loop over a list of frame durations. -/
noncomputable def runInertia (s : InertiaState) (dts : List ℝ) : InertiaState :=
  dts.foldl (fun t dt => inertiaStep dt t) s

/-- The map-space coordinate under screen abscissa `cx`, read off the current
view box (specification glossary): the view-box origin plus the view-box
width times the screen fraction `(cx - rect.left) / rect.width`. -/
def mapUnderPointX (s : MapState) (rect : Rect) (cx : ℚ) : ℚ :=
  (getViewBox s).x + (getViewBox s).width * ((cx - rect.left) / rect.width)

/-- The map-space coordinate under screen ordinate `cy`, read off the current
view box. -/
def mapUnderPointY (s : MapState) (rect : Rect) (cy : ℚ) : ℚ :=
  (getViewBox s).y + (getViewBox s).height * ((cy - rect.top) / rect.height)

end PosterMap

namespace PosterMap

theorem clampQ_le_right (v lo hi : ℚ) : clampQ v lo hi ≤ hi :=
  min_le_right _ _

theorem le_clampQ (v lo hi : ℚ) (h : lo ≤ hi) : lo ≤ clampQ v lo hi :=
  le_min (le_max_right _ _) h

theorem clampQ_eq_self (v lo hi : ℚ) (h1 : lo ≤ v) (h2 : v ≤ hi) : clampQ v lo hi = v := by
  unfold clampQ
  rw [max_eq_left h1, min_eq_left h2]

theorem updatePanForPinch_viewBox_x (s : MapState) (rect : Rect) (tz cx cy : ℚ)
    (hw : rect.width ≠ 0) (hh : rect.height ≠ 0) :
    (getViewBox (updatePanForPinch s rect tz cx cy)).x =
      clampQ (pinchDesiredViewX s rect tz cx) 0 (pinchMaxViewX tz) := by
  unfold updatePanForPinch
  rw [if_neg (by simp [hw, hh])]
  unfold getViewBox nextViewW
  ring

theorem updatePanForPinch_viewBox_y (s : MapState) (rect : Rect) (tz cx cy : ℚ)
    (hw : rect.width ≠ 0) (hh : rect.height ≠ 0) :
    (getViewBox (updatePanForPinch s rect tz cx cy)).y =
      clampQ (pinchDesiredViewY s rect tz cy) 0 (pinchMaxViewY tz) := by
  unfold updatePanForPinch
  rw [if_neg (by simp [hw, hh])]
  unfold getViewBox nextViewH
  ring

theorem updatePanForPinch_viewBox_width (s : MapState) (rect : Rect) (tz cx cy : ℚ) :
    (getViewBox (updatePanForPinch s rect tz cx cy)).width = baseWidth / tz := by
  unfold updatePanForPinch
  split_ifs <;> rfl

theorem updatePanForPinch_viewBox_height (s : MapState) (rect : Rect) (tz cx cy : ℚ) :
    (getViewBox (updatePanForPinch s rect tz cx cy)).height = baseHeight / tz := by
  unfold updatePanForPinch
  split_ifs <;> rfl

/-- C8: the stop operations are idempotent — `stopPanInertia` and
`stopPanAnimation` each give the same state called twice as called once, and
the combined `stopAllMotion` is idempotent, errors nowhere, leaves pan and
zoom untouched, and ends idle (no scheduled frames, zero velocity). -/
theorem stopAllMotion_idempotent :
    (∀ (s : MapState) (b : Bool),
        stopPanInertia (stopPanInertia s b) b = stopPanInertia s b) ∧
    (∀ s : MapState, stopPanAnimation (stopPanAnimation s) = stopPanAnimation s) ∧
    (∀ s : MapState,
        stopAllMotion (stopAllMotion s) = stopAllMotion s ∧
        (stopAllMotion s).panInertiaFrame = false ∧
        (stopAllMotion s).panAnimationFrame = false ∧
        (stopAllMotion s).panAnimationComplete = false ∧
        (stopAllMotion s).panVelocityX = 0 ∧
        (stopAllMotion s).panVelocityY = 0 ∧
        (stopAllMotion s).panX = s.panX ∧
        (stopAllMotion s).panY = s.panY ∧
        (stopAllMotion s).currentZoom = s.currentZoom) := by
  refine ⟨fun s b => ?_, fun s => rfl, fun s => ?_⟩
  · cases b <;> rfl
  · exact ⟨rfl, rfl, rfl, rfl, rfl, rfl, rfl, rfl, rfl⟩

/-- C4: when a second touch point arrives during an active pan, the pan
session ends with no inertia seeded from it — the scheduled inertia frame is
cancelled and the velocity zeroed, not handed off — and the pinch session
starts with `pinchStartZoom` equal to the zoom at the moment of interruption;
a subsequent `endPan` (the eventual touch release) is a no-op on the new
state, so the aborted pan can never start inertia later either. -/
theorem pan_to_pinch_transition (s : MapState) (dist : ℚ) (h : s.isPanning = true) :
    (touchStartTwoFingers s dist).isPanning = false ∧
    (touchStartTwoFingers s dist).pinchActive = true ∧
    (touchStartTwoFingers s dist).pinchStartZoom = s.currentZoom ∧
    (touchStartTwoFingers s dist).panInertiaFrame = false ∧
    (touchStartTwoFingers s dist).panVelocityX = 0 ∧
    (touchStartTwoFingers s dist).panVelocityY = 0 ∧
    (touchStartTwoFingers s dist).panAnimationFrame = false ∧
    (∀ (now : ℚ) (skip : Bool), endPan (touchStartTwoFingers s dist) now skip =
      touchStartTwoFingers s dist) := by
  refine ⟨rfl, rfl, rfl, rfl, rfl, rfl, rfl, fun now skip => ?_⟩
  rfl

/-- Witness for C4: a panning state interrupted by a two-finger touch at
distance 80. -/
theorem pan_to_pinch_transition_witness :
    ({ mkState 2 5 6 with isPanning := true } : MapState).isPanning = true ∧
    ((touchStartTwoFingers { mkState 2 5 6 with isPanning := true } 80).isPanning = false ∧
     (touchStartTwoFingers { mkState 2 5 6 with isPanning := true } 80).pinchActive = true ∧
     (touchStartTwoFingers { mkState 2 5 6 with isPanning := true } 80).pinchStartZoom =
       ({ mkState 2 5 6 with isPanning := true } : MapState).currentZoom ∧
     (touchStartTwoFingers { mkState 2 5 6 with isPanning := true } 80).panInertiaFrame = false ∧
     (touchStartTwoFingers { mkState 2 5 6 with isPanning := true } 80).panVelocityX = 0 ∧
     (touchStartTwoFingers { mkState 2 5 6 with isPanning := true } 80).panVelocityY = 0 ∧
     (touchStartTwoFingers { mkState 2 5 6 with isPanning := true } 80).panAnimationFrame = false ∧
     (∀ (now : ℚ) (skip : Bool),
        endPan (touchStartTwoFingers { mkState 2 5 6 with isPanning := true } 80) now skip =
          touchStartTwoFingers { mkState 2 5 6 with isPanning := true } 80)) :=
  ⟨rfl, pan_to_pinch_transition { mkState 2 5 6 with isPanning := true } 80 rfl⟩

/-- C9: after any pinch update against a positive-area client rectangle, the
derived view box lies inside the canvas: its `x` is within
`[0, max 0 (baseWidth - width)]` and its `y` within
`[0, max 0 (baseHeight - height)]`. -/
theorem pinch_viewbox_inside (s : MapState) (rect : Rect) (tz cx cy : ℚ)
    (hw : 0 < rect.width) (hh : 0 < rect.height) (htz : 0 < tz) :
    0 ≤ (getViewBox (updatePanForPinch s rect tz cx cy)).x ∧
    (getViewBox (updatePanForPinch s rect tz cx cy)).x ≤
      max 0 (baseWidth - (getViewBox (updatePanForPinch s rect tz cx cy)).width) ∧
    0 ≤ (getViewBox (updatePanForPinch s rect tz cx cy)).y ∧
    (getViewBox (updatePanForPinch s rect tz cx cy)).y ≤
      max 0 (baseHeight - (getViewBox (updatePanForPinch s rect tz cx cy)).height) := by
  rw [updatePanForPinch_viewBox_x s rect tz cx cy hw.ne' hh.ne',
    updatePanForPinch_viewBox_y s rect tz cx cy hw.ne' hh.ne',
    updatePanForPinch_viewBox_width, updatePanForPinch_viewBox_height]
  refine ⟨le_clampQ _ _ _ (le_max_left _ _), ?_, le_clampQ _ _ _ (le_max_left _ _), ?_⟩
  · exact clampQ_le_right _ _ _
  · exact clampQ_le_right _ _ _

/-- Witness for C9: a pinch update at zoom target `3/2` from the default
state, with midpoint `(25, 50)` in a `100 × 100` client rectangle. -/
theorem pinch_viewbox_inside_witness :
    (0 : ℚ) < 100 ∧ (0 : ℚ) < (3 / 2 : ℚ) ∧
    (0 ≤ (getViewBox (updatePanForPinch (mkState 2 (575 / 2) 340) ⟨0, 0, 100, 100⟩
        (3 / 2) 25 50)).x ∧
     (getViewBox (updatePanForPinch (mkState 2 (575 / 2) 340) ⟨0, 0, 100, 100⟩
        (3 / 2) 25 50)).x ≤
       max 0 (baseWidth - (getViewBox (updatePanForPinch (mkState 2 (575 / 2) 340)
        ⟨0, 0, 100, 100⟩ (3 / 2) 25 50)).width) ∧
     0 ≤ (getViewBox (updatePanForPinch (mkState 2 (575 / 2) 340) ⟨0, 0, 100, 100⟩
        (3 / 2) 25 50)).y ∧
     (getViewBox (updatePanForPinch (mkState 2 (575 / 2) 340) ⟨0, 0, 100, 100⟩
        (3 / 2) 25 50)).y ≤
       max 0 (baseHeight - (getViewBox (updatePanForPinch (mkState 2 (575 / 2) 340)
        ⟨0, 0, 100, 100⟩ (3 / 2) 25 50)).height)) :=
  ⟨by norm_num, by norm_num,
   pinch_viewbox_inside (mkState 2 (575 / 2) 340) ⟨0, 0, 100, 100⟩ (3 / 2) 25 50
     (by norm_num) (by norm_num) (by norm_num)⟩

theorem updatePanForPinch_zoom (s : MapState) (rect : Rect) (tz cx cy : ℚ) :
    (updatePanForPinch s rect tz cx cy).currentZoom = tz := by
  unfold updatePanForPinch
  split_ifs <;> rfl

/-- C6: starting from a state whose zoom satisfies the bounds, every single
zoom-mutating update — wheel zoom at any (positive exponential) factor, pinch
update at any finger distances, the zoom-in and zoom-out buttons, and
centering with a `minZoom` option — leaves `minZoom ≤ zoom ≤ maxZoom`. -/
theorem zoom_within_bounds (s : MapState) (h0 : 0 ≤ s.minZoom) (hmm : s.minZoom ≤ s.maxZoom)
    (hlo : s.minZoom ≤ s.currentZoom) (hhi : s.currentZoom ≤ s.maxZoom) :
    (∀ f : ℚ, s.minZoom ≤ (wheelZoom s f).currentZoom ∧
        (wheelZoom s f).currentZoom ≤ s.maxZoom) ∧
    (∀ (rect : Rect) (dist mx my : ℚ),
        s.minZoom ≤ (handlePinchMove s rect dist mx my).currentZoom ∧
        (handlePinchMove s rect dist mx my).currentZoom ≤ s.maxZoom) ∧
    (s.minZoom ≤ (zoomIn s).currentZoom ∧ (zoomIn s).currentZoom ≤ s.maxZoom) ∧
    (s.minZoom ≤ (zoomOut s).currentZoom ∧ (zoomOut s).currentZoom ≤ s.maxZoom) ∧
    (∀ (x y m : ℚ) (focus : Option ℚ × Option ℚ),
        s.minZoom ≤ (centerOnCoordinates s (some x) (some y) (some m) focus).currentZoom ∧
        (centerOnCoordinates s (some x) (some y) (some m) focus).currentZoom ≤ s.maxZoom) := by
  refine ⟨fun f => ⟨?_, ?_⟩, fun rect dist mx my => ?_, ⟨?_, ?_⟩, ⟨?_, ?_⟩,
    fun x y m focus => ⟨?_, ?_⟩⟩
  · exact le_min hmm (le_max_left _ _)
  · exact min_le_left _ _
  · unfold handlePinchMove
    split_ifs with hguard
    · exact ⟨hlo, hhi⟩
    · rw [updatePanForPinch_zoom]
      exact ⟨le_clampQ _ _ _ hmm, clampQ_le_right _ _ _⟩
  · show s.minZoom ≤ min s.maxZoom (s.currentZoom * 1.2)
    exact le_min hmm (by linarith)
  · exact min_le_left _ _
  · exact le_max_left _ _
  · exact max_le hmm (min_le_left _ _)
  · exact le_min hmm (le_trans hlo (le_max_left _ _))
  · exact min_le_left _ _

/-- Witness for C6 at the initial state (zoom 1, bounds `[1, 8]`). -/
theorem zoom_within_bounds_witness :
    (0 : ℚ) ≤ (mkState 1 0 0).minZoom ∧
    (mkState 1 0 0).minZoom ≤ (mkState 1 0 0).maxZoom ∧
    (mkState 1 0 0).minZoom ≤ (mkState 1 0 0).currentZoom ∧
    (mkState 1 0 0).currentZoom ≤ (mkState 1 0 0).maxZoom ∧
    ((∀ f : ℚ, (mkState 1 0 0).minZoom ≤ (wheelZoom (mkState 1 0 0) f).currentZoom ∧
         (wheelZoom (mkState 1 0 0) f).currentZoom ≤ (mkState 1 0 0).maxZoom) ∧
     (∀ (rect : Rect) (dist mx my : ℚ),
         (mkState 1 0 0).minZoom ≤ (handlePinchMove (mkState 1 0 0) rect dist mx my).currentZoom ∧
         (handlePinchMove (mkState 1 0 0) rect dist mx my).currentZoom ≤
           (mkState 1 0 0).maxZoom) ∧
     ((mkState 1 0 0).minZoom ≤ (zoomIn (mkState 1 0 0)).currentZoom ∧
       (zoomIn (mkState 1 0 0)).currentZoom ≤ (mkState 1 0 0).maxZoom) ∧
     ((mkState 1 0 0).minZoom ≤ (zoomOut (mkState 1 0 0)).currentZoom ∧
       (zoomOut (mkState 1 0 0)).currentZoom ≤ (mkState 1 0 0).maxZoom) ∧
     (∀ (x y m : ℚ) (focus : Option ℚ × Option ℚ),
         (mkState 1 0 0).minZoom ≤
           (centerOnCoordinates (mkState 1 0 0) (some x) (some y) (some m) focus).currentZoom ∧
         (centerOnCoordinates (mkState 1 0 0) (some x) (some y) (some m) focus).currentZoom ≤
           (mkState 1 0 0).maxZoom)) :=
  ⟨by norm_num [mkState], by norm_num [mkState], by norm_num [mkState], by norm_num [mkState],
   zoom_within_bounds (mkState 1 0 0) (by norm_num [mkState]) (by norm_num [mkState])
     (by norm_num [mkState]) (by norm_num [mkState])⟩

theorem abs_clampNeg_le (m x : ℚ) (hm : 0 ≤ m) : |max (-m) (min m x)| ≤ m := by
  rw [abs_le]
  exact ⟨le_max_left _ _, max_le (by linarith) (min_le_left _ _)⟩

theorem smoothing_step_bound (v x : ℚ) (hv : |v| ≤ velocityMax) :
    |(1 - velocitySmoothing) * v +
      velocitySmoothing * max (-velocityMax) (min velocityMax x)| ≤ velocityMax := by
  have hC : |max (-velocityMax) (min velocityMax x)| ≤ velocityMax :=
    abs_clampNeg_le _ _ (by norm_num [velocityMax])
  have h1 : (0 : ℚ) < 1 - velocitySmoothing := by norm_num [velocitySmoothing]
  have h2 : (0 : ℚ) < velocitySmoothing := by norm_num [velocitySmoothing]
  calc |(1 - velocitySmoothing) * v +
        velocitySmoothing * max (-velocityMax) (min velocityMax x)|
      ≤ |(1 - velocitySmoothing) * v| +
        |velocitySmoothing * max (-velocityMax) (min velocityMax x)| := abs_add _ _
    _ = (1 - velocitySmoothing) * |v| +
        velocitySmoothing * |max (-velocityMax) (min velocityMax x)| := by
        rw [abs_mul, abs_mul, abs_of_pos h1, abs_of_pos h2]
    _ ≤ (1 - velocitySmoothing) * velocityMax + velocitySmoothing * velocityMax := by
        nlinarith [hv, hC]
    _ = velocityMax := by ring

theorem recordVelocity_velocity_bound (s : MapState) (x y t : ℚ)
    (hx : |s.panVelocityX| ≤ velocityMax) (hy : |s.panVelocityY| ≤ velocityMax) :
    |(recordVelocity s x y t).panVelocityX| ≤ velocityMax ∧
    |(recordVelocity s x y t).panVelocityY| ≤ velocityMax := by
  simp only [recordVelocity]
  split_ifs with h1 h2
  · exact ⟨smoothing_step_bound _ _ hx, smoothing_step_bound _ _ hy⟩
  · exact ⟨hx, hy⟩
  · exact ⟨hx, hy⟩

theorem startPanInertia_velocity_bound (s : MapState) (c : ℚ) (hc : 0 ≤ c)
    (hx : |s.panVelocityX| ≤ c) (hy : |s.panVelocityY| ≤ c) :
    |(startPanInertia s).panVelocityX| ≤ c ∧ |(startPanInertia s).panVelocityY| ≤ c := by
  unfold startPanInertia stopPanInertia
  split_ifs <;> simp_all

theorem endPan_velocity_bound (s : MapState) (now : ℚ)
    (hx : |s.panVelocityX| ≤ velocityMax) (hy : |s.panVelocityY| ≤ velocityMax) :
    |(endPan s now false).panVelocityX| ≤ flickMax ∧
    |(endPan s now false).panVelocityY| ≤ flickMax := by
  have hmf : velocityMax ≤ flickMax := by norm_num [velocityMax, flickMax]
  have hf0 : (0 : ℚ) ≤ flickMax := by norm_num [flickMax]
  simp only [endPan]
  split_ifs with hpan hskip hflick
  · exact ⟨le_trans hx hmf, le_trans hy hmf⟩
  · exact absurd hskip (by simp)
  · exact startPanInertia_velocity_bound _ _ hf0
      (abs_clampNeg_le _ _ hf0) (abs_clampNeg_le _ _ hf0)
  · exact startPanInertia_velocity_bound _ _ hf0
      (le_trans hx hmf) (le_trans hy hmf)

/-- C10: the smoothed pan velocity stays bounded throughout a gesture —
`beginPan` starts it at zero, each `recordVelocity` step keeps each component
within the per-sample cap `velocityMax = 0.75`, and after the flick boost of
`endPan` each component is at most `flickMax = 0.9`, the state from which
inertia is seeded. -/
theorem velocity_always_bounded :
    (∀ (s : MapState) (cx cy t : ℚ) (touch : Bool),
        (beginPan s cx cy touch t).panVelocityX = 0 ∧
        (beginPan s cx cy touch t).panVelocityY = 0) ∧
    (∀ (s : MapState) (x y t : ℚ),
        |s.panVelocityX| ≤ velocityMax → |s.panVelocityY| ≤ velocityMax →
        |(recordVelocity s x y t).panVelocityX| ≤ velocityMax ∧
        |(recordVelocity s x y t).panVelocityY| ≤ velocityMax) ∧
    (∀ (s : MapState) (now : ℚ),
        |s.panVelocityX| ≤ velocityMax → |s.panVelocityY| ≤ velocityMax →
        |(endPan s now false).panVelocityX| ≤ flickMax ∧
        |(endPan s now false).panVelocityY| ≤ flickMax) :=
  ⟨fun s cx cy t touch => ⟨rfl, rfl⟩,
   fun s x y t hx hy => recordVelocity_velocity_bound s x y t hx hy,
   fun s now hx hy => endPan_velocity_bound s now hx hy⟩

/-- Witness for C10 at the zero-velocity initial state. -/
theorem velocity_always_bounded_witness :
    |(mkState 1 0 0).panVelocityX| ≤ velocityMax ∧
    |(mkState 1 0 0).panVelocityY| ≤ velocityMax ∧
    ((beginPan (mkState 1 0 0) 3 4 true 7).panVelocityX = 0 ∧
     (beginPan (mkState 1 0 0) 3 4 true 7).panVelocityY = 0) ∧
    (|(recordVelocity (mkState 1 0 0) 9 9 5).panVelocityX| ≤ velocityMax ∧
     |(recordVelocity (mkState 1 0 0) 9 9 5).panVelocityY| ≤ velocityMax) ∧
    (|(endPan (mkState 1 0 0) 5 false).panVelocityX| ≤ flickMax ∧
     |(endPan (mkState 1 0 0) 5 false).panVelocityY| ≤ flickMax) :=
  ⟨by norm_num [mkState, velocityMax],
   by norm_num [mkState, velocityMax],
   velocity_always_bounded.1 (mkState 1 0 0) 3 4 7 true,
   velocity_always_bounded.2.1 (mkState 1 0 0) 9 9 5
     (by norm_num [mkState, velocityMax]) (by norm_num [mkState, velocityMax]),
   velocity_always_bounded.2.2 (mkState 1 0 0) 5
     (by norm_num [mkState, velocityMax]) (by norm_num [mkState, velocityMax])⟩

theorem endPan_pan (s : MapState) (now : ℚ) (skip : Bool) :
    (endPan s now skip).panX = s.panX ∧ (endPan s now skip).panY = s.panY := by
  simp only [endPan, startPanInertia, stopPanInertia]
  split_ifs <;> simp

/-- C7: the drag sequence `beginPan(100, 100)`, `updatePan(150, 130)`,
`endPan()` at zoom 1 (bounds `[1, 8]`, mouse input) moves the pan by exactly
`(+50, +30)` from the pan recorded at drag start; `endPan` itself leaves the
pan untouched, and an inertia frame only ever adds `velocity * dt` to the
pan afterwards. -/
theorem pan_round_trip (s : MapState) (t0 t1 t2 : ℚ)
    (hz : s.currentZoom = 1) (hmin : s.minZoom = 1) (hmax : s.maxZoom = 8) :
    (updatePan (beginPan s 100 100 false t0) 150 130 t1).panX = s.panX + 50 ∧
    (updatePan (beginPan s 100 100 false t0) 150 130 t1).panY = s.panY + 30 ∧
    (endPan (updatePan (beginPan s 100 100 false t0) 150 130 t1) t2 false).panX =
      (updatePan (beginPan s 100 100 false t0) 150 130 t1).panX ∧
    (endPan (updatePan (beginPan s 100 100 false t0) 150 130 t1) t2 false).panY =
      (updatePan (beginPan s 100 100 false t0) 150 130 t1).panY ∧
    (∀ (dt : ℝ) (st : InertiaState), st.active = true →
        (inertiaStep dt st).panX = st.panX + st.vx * dt ∧
        (inertiaStep dt st).panY = st.panY + st.vy * dt) := by
  refine ⟨?_, ?_, (endPan_pan _ t2 false).1, (endPan_pan _ t2 false).2, ?_⟩
  · simp only [updatePan, beginPan, recordVelocity, stopPanAnimation, stopPanInertia,
      getPanSpeedMultiplier]
    split_ifs <;> simp_all [hz, hmin, hmax] <;> norm_num
  · simp only [updatePan, beginPan, recordVelocity, stopPanAnimation, stopPanInertia,
      getPanSpeedMultiplier]
    split_ifs <;> simp_all [hz, hmin, hmax] <;> norm_num
  · intro dt st h
    simp only [inertiaStep, h, if_true]
    split_ifs <;> exact ⟨rfl, rfl⟩

/-- Witness for C7: the drag starting from the state at zoom 1 with pan
`(7, 11)`. -/
theorem pan_round_trip_witness :
    (mkState 1 7 11).currentZoom = 1 ∧ (mkState 1 7 11).minZoom = 1 ∧
    (mkState 1 7 11).maxZoom = 8 ∧
    ((updatePan (beginPan (mkState 1 7 11) 100 100 false 0) 150 130 16).panX =
       (mkState 1 7 11).panX + 50 ∧
     (updatePan (beginPan (mkState 1 7 11) 100 100 false 0) 150 130 16).panY =
       (mkState 1 7 11).panY + 30 ∧
     (endPan (updatePan (beginPan (mkState 1 7 11) 100 100 false 0) 150 130 16) 30
         false).panX =
       (updatePan (beginPan (mkState 1 7 11) 100 100 false 0) 150 130 16).panX ∧
     (endPan (updatePan (beginPan (mkState 1 7 11) 100 100 false 0) 150 130 16) 30
         false).panY =
       (updatePan (beginPan (mkState 1 7 11) 100 100 false 0) 150 130 16).panY ∧
     (∀ (dt : ℝ) (st : InertiaState), st.active = true →
         (inertiaStep dt st).panX = st.panX + st.vx * dt ∧
         (inertiaStep dt st).panY = st.panY + st.vy * dt)) :=
  ⟨rfl, rfl, rfl, pan_round_trip (mkState 1 7 11) 0 16 30 rfl rfl rfl⟩

/-- C1 (amended): the pinch anchor invariant holds exactly whenever the
desired view-box origin needs no clamping — for every pinch update with a
positive-area client rectangle, a midpoint whose screen fractions lie in
`[0, 1]`, and a desired view origin inside
`[0, pinchMaxViewX] × [0, pinchMaxViewY]`, the map-space coordinate under the
midpoint after the update equals the one before it.  (When the clamp binds,
the anchor moves: see the counterexample.) -/
theorem pinch_anchor_preserved (s : MapState) (rect : Rect) (tz cx cy : ℚ)
    (hw : 0 < rect.width) (hh : 0 < rect.height)
    (hfx0 : 0 ≤ (cx - rect.left) / rect.width) (hfx1 : (cx - rect.left) / rect.width ≤ 1)
    (hfy0 : 0 ≤ (cy - rect.top) / rect.height) (hfy1 : (cy - rect.top) / rect.height ≤ 1)
    (hdx0 : 0 ≤ pinchDesiredViewX s rect tz cx)
    (hdx1 : pinchDesiredViewX s rect tz cx ≤ pinchMaxViewX tz)
    (hdy0 : 0 ≤ pinchDesiredViewY s rect tz cy)
    (hdy1 : pinchDesiredViewY s rect tz cy ≤ pinchMaxViewY tz) :
    mapUnderPointX (updatePanForPinch s rect tz cx cy) rect cx = mapUnderPointX s rect cx ∧
    mapUnderPointY (updatePanForPinch s rect tz cx cy) rect cy = mapUnderPointY s rect cy := by
  have hfx : pinchFractionX rect cx = (cx - rect.left) / rect.width := by
    unfold pinchFractionX
    exact clampQ_eq_self _ _ _ hfx0 hfx1
  have hfy : pinchFractionY rect cy = (cy - rect.top) / rect.height := by
    unfold pinchFractionY
    exact clampQ_eq_self _ _ _ hfy0 hfy1
  constructor
  · unfold mapUnderPointX
    rw [updatePanForPinch_viewBox_x s rect tz cx cy hw.ne' hh.ne',
      updatePanForPinch_viewBox_width, clampQ_eq_self _ _ _ hdx0 hdx1]
    unfold pinchDesiredViewX nextViewW
    rw [hfx]
    ring
  · unfold mapUnderPointY
    rw [updatePanForPinch_viewBox_y s rect tz cx cy hw.ne' hh.ne',
      updatePanForPinch_viewBox_height, clampQ_eq_self _ _ _ hdy0 hdy1]
    unfold pinchDesiredViewY nextViewH
    rw [hfy]
    ring

/-- Counterexample for C1 as stated: at zoom 2 with the view box at the
canvas origin, a pinch out to the in-bounds target zoom `3/2` with midpoint
`(25, 50)` in a `100 × 100` client rectangle clamps the desired view origin,
and the map-space coordinate under the midpoint moves (575/3 after versus
575/4 before). -/
theorem pinch_anchor_counterexample :
    (0 : ℚ) < (⟨0, 0, 100, 100⟩ : Rect).width ∧
    (0 : ℚ) < (⟨0, 0, 100, 100⟩ : Rect).height ∧
    (mkState 2 (575 / 2) 340).minZoom ≤ 3 / 2 ∧
    (3 / 2 : ℚ) ≤ (mkState 2 (575 / 2) 340).maxZoom ∧
    mapUnderPointX (updatePanForPinch (mkState 2 (575 / 2) 340) ⟨0, 0, 100, 100⟩ (3 / 2) 25 50)
        ⟨0, 0, 100, 100⟩ 25 ≠
      mapUnderPointX (mkState 2 (575 / 2) 340) ⟨0, 0, 100, 100⟩ 25 := by
  refine ⟨by norm_num, by norm_num, by norm_num [mkState], by norm_num [mkState], ?_⟩
  norm_num [mapUnderPointX, updatePanForPinch, getViewBox, mkState, pinchDesiredViewX,
    pinchDesiredViewY, pinchFractionX, pinchFractionY, clampQ, pinchMaxViewX, pinchMaxViewY,
    nextViewW, nextViewH, baseWidth, baseHeight, min_def, max_def]

/-- Witness for C1 (amended): a centred pinch from the origin state to zoom
2, where no clamping occurs. -/
theorem pinch_anchor_preserved_witness :
    (0 : ℚ) < (⟨0, 0, 100, 100⟩ : Rect).width ∧
    (0 : ℚ) < (⟨0, 0, 100, 100⟩ : Rect).height ∧
    (0 : ℚ) ≤ ((50 : ℚ) - (⟨0, 0, 100, 100⟩ : Rect).left) / (⟨0, 0, 100, 100⟩ : Rect).width ∧
    ((50 : ℚ) - (⟨0, 0, 100, 100⟩ : Rect).left) / (⟨0, 0, 100, 100⟩ : Rect).width ≤ 1 ∧
    (0 : ℚ) ≤ ((50 : ℚ) - (⟨0, 0, 100, 100⟩ : Rect).top) / (⟨0, 0, 100, 100⟩ : Rect).height ∧
    ((50 : ℚ) - (⟨0, 0, 100, 100⟩ : Rect).top) / (⟨0, 0, 100, 100⟩ : Rect).height ≤ 1 ∧
    (0 : ℚ) ≤ pinchDesiredViewX (mkState 1 0 0) ⟨0, 0, 100, 100⟩ 2 50 ∧
    pinchDesiredViewX (mkState 1 0 0) ⟨0, 0, 100, 100⟩ 2 50 ≤ pinchMaxViewX 2 ∧
    (0 : ℚ) ≤ pinchDesiredViewY (mkState 1 0 0) ⟨0, 0, 100, 100⟩ 2 50 ∧
    pinchDesiredViewY (mkState 1 0 0) ⟨0, 0, 100, 100⟩ 2 50 ≤ pinchMaxViewY 2 ∧
    (mapUnderPointX (updatePanForPinch (mkState 1 0 0) ⟨0, 0, 100, 100⟩ 2 50 50)
        ⟨0, 0, 100, 100⟩ 50 =
      mapUnderPointX (mkState 1 0 0) ⟨0, 0, 100, 100⟩ 50 ∧
     mapUnderPointY (updatePanForPinch (mkState 1 0 0) ⟨0, 0, 100, 100⟩ 2 50 50)
        ⟨0, 0, 100, 100⟩ 50 =
      mapUnderPointY (mkState 1 0 0) ⟨0, 0, 100, 100⟩ 50) :=
  ⟨by norm_num, by norm_num, by norm_num, by norm_num, by norm_num, by norm_num,
   by norm_num [pinchDesiredViewX, pinchDesiredViewY, pinchFractionX, pinchFractionY,
     clampQ, getViewBox, mkState, pinchMaxViewX, pinchMaxViewY, nextViewW, nextViewH,
     baseWidth, baseHeight, min_def, max_def], by norm_num [pinchDesiredViewX, pinchDesiredViewY, pinchFractionX, pinchFractionY,
     clampQ, getViewBox, mkState, pinchMaxViewX, pinchMaxViewY, nextViewW, nextViewH,
     baseWidth, baseHeight, min_def, max_def], by norm_num [pinchDesiredViewX, pinchDesiredViewY, pinchFractionX, pinchFractionY,
     clampQ, getViewBox, mkState, pinchMaxViewX, pinchMaxViewY, nextViewW, nextViewH,
     baseWidth, baseHeight, min_def, max_def], by norm_num [pinchDesiredViewX, pinchDesiredViewY, pinchFractionX, pinchFractionY,
     clampQ, getViewBox, mkState, pinchMaxViewX, pinchMaxViewY, nextViewW, nextViewH,
     baseWidth, baseHeight, min_def, max_def],
   pinch_anchor_preserved (mkState 1 0 0) ⟨0, 0, 100, 100⟩ 2 50 50
     (by norm_num) (by norm_num) (by norm_num) (by norm_num) (by norm_num) (by norm_num)
     (by norm_num [pinchDesiredViewX, pinchDesiredViewY, pinchFractionX, pinchFractionY,
     clampQ, getViewBox, mkState, pinchMaxViewX, pinchMaxViewY, nextViewW, nextViewH,
     baseWidth, baseHeight, min_def, max_def]) (by norm_num [pinchDesiredViewX, pinchDesiredViewY, pinchFractionX, pinchFractionY,
     clampQ, getViewBox, mkState, pinchMaxViewX, pinchMaxViewY, nextViewW, nextViewH,
     baseWidth, baseHeight, min_def, max_def]) (by norm_num [pinchDesiredViewX, pinchDesiredViewY, pinchFractionX, pinchFractionY,
     clampQ, getViewBox, mkState, pinchMaxViewX, pinchMaxViewY, nextViewW, nextViewH,
     baseWidth, baseHeight, min_def, max_def]) (by norm_num [pinchDesiredViewX, pinchDesiredViewY, pinchFractionX, pinchFractionY,
     clampQ, getViewBox, mkState, pinchMaxViewX, pinchMaxViewY, nextViewW, nextViewH,
     baseWidth, baseHeight, min_def, max_def])⟩

/-- C3 (amended): centering validates its target coordinates and is a no-op
on non-finite input, and a pinch update whose computed finger distance is
non-finite (or zero) is ignored; the pan update path, however, performs no
finiteness validation (see the counterexample). -/
theorem nonfinite_guards (s : MapState) (x y : JSNum) (m : Option ℚ)
    (focus : Option ℚ × Option ℚ) (rect : Rect) (dist : JSNum) (mx my : ℚ)
    (hxy : x = none ∨ y = none) (hd : dist = none ∨ dist = some 0) :
    centerOnCoordinates s x y m focus = s ∧ handlePinchMoveJS s rect dist mx my = s := by
  constructor
  · rcases hxy with h | h
    · subst h
      cases y <;> rfl
    · subst h
      cases x <;> rfl
  · rcases hd with h | h <;> subst h
    · rfl
    · show handlePinchMove s rect 0 mx my = s
      unfold handlePinchMove
      rw [if_pos (Or.inr (Or.inr rfl))]

/-- Counterexample for C3 as stated: `updatePan` receiving a non-finite
(`NaN`) pointer abscissa is not ignored — starting from `panX = 0`, the
computed pan is `NaN` (not the unchanged `0`), corrupting the viewport. -/
theorem nonfinite_updatePan_counterexample :
    (updatePanJS 100 100 0 0 1 1 none (some 110)).1 = none ∧
    (updatePanJS 100 100 0 0 1 1 none (some 110)).1 ≠ some (0 : ℚ) := by
  constructor <;> simp [updatePanJS, jsAdd, jsMul, jsDiv, jsSub]

/-- Witness for C3 (amended): a `NaN` centering target and a `NaN` pinch
distance are both no-ops on the initial state. -/
theorem nonfinite_guards_witness :
    ((none : JSNum) = none ∨ (some (5 : ℚ) : JSNum) = none) ∧
    ((none : JSNum) = none ∨ (none : JSNum) = some 0) ∧
    (centerOnCoordinates (mkState 1 0 0) none (some 5) none (none, none) = mkState 1 0 0 ∧
     handlePinchMoveJS (mkState 1 0 0) ⟨0, 0, 100, 100⟩ none 3 4 = mkState 1 0 0) :=
  ⟨Or.inl rfl, Or.inl rfl,
   nonfinite_guards (mkState 1 0 0) none (some 5) none (none, none) ⟨0, 0, 100, 100⟩ none 3 4
     (Or.inl rfl) (Or.inl rfl)⟩

theorem runInertia_active_closed (dts : List ℝ) : ∀ st : InertiaState,
    (runInertia st dts).active = true →
    st.active = true ∧
    (runInertia st dts).vx = st.vx * inertiaDecay ^ (dts.sum / 16) ∧
    (runInertia st dts).vy = st.vy * inertiaDecay ^ (dts.sum / 16) := by
  induction dts with
  | nil =>
    intro st h
    refine ⟨h, ?_, ?_⟩ <;> simp [runInertia]
  | cons dt dts ih =>
    intro st h
    have hstep : runInertia st (dt :: dts) = runInertia (inertiaStep dt st) dts := rfl
    rw [hstep] at h ⊢
    obtain ⟨hact, hvx, hvy⟩ := ih (inertiaStep dt st) h
    by_cases hs : st.active = true
    · by_cases hstop : Real.sqrt ((st.vx * inertiaDecay ^ (dt / 16)) ^ 2 +
          (st.vy * inertiaDecay ^ (dt / 16)) ^ 2) < inertiaMinVelocity
      · exfalso
        have hfalse : (inertiaStep dt st).active = false := by
          simp [inertiaStep, hs, hstop]
        rw [hfalse] at hact
        exact Bool.false_ne_true hact
      · have hstepeq : inertiaStep dt st =
            { vx := st.vx * inertiaDecay ^ (dt / 16), vy := st.vy * inertiaDecay ^ (dt / 16),
              panX := st.panX + st.vx * dt, panY := st.panY + st.vy * dt,
              active := true } := by
          simp [inertiaStep, hs, hstop]
        have hpow : inertiaDecay ^ (dt / 16) * inertiaDecay ^ (dts.sum / 16) =
            inertiaDecay ^ ((dt :: dts).sum / 16) := by
          rw [List.sum_cons, add_div,
            Real.rpow_add (by norm_num [inertiaDecay] : (0 : ℝ) < inertiaDecay)]
        refine ⟨hs, ?_, ?_⟩
        · rw [hstepeq] at hvx
          rw [hstepeq, hvx]
          show st.vx * inertiaDecay ^ (dt / 16) * inertiaDecay ^ (dts.sum / 16) =
            st.vx * inertiaDecay ^ ((dt :: dts).sum / 16)
          rw [mul_assoc, hpow]
        · rw [hstepeq] at hvy
          rw [hstepeq, hvy]
          show st.vy * inertiaDecay ^ (dt / 16) * inertiaDecay ^ (dts.sum / 16) =
            st.vy * inertiaDecay ^ ((dt :: dts).sum / 16)
          rw [mul_assoc, hpow]
    · exfalso
      have heq : inertiaStep dt st = st := by simp [inertiaStep, hs]
      rw [heq] at hact
      exact hs hact

theorem decay16_eq : inertiaDecay ^ ((16 : ℝ) / 16) = 0.93 := by
  rw [show ((16 : ℝ) / 16) = (1 : ℝ) by norm_num, Real.rpow_one]
  rfl

theorem inertia16_no_stop :
    ¬ (Real.sqrt (((0.5 : ℝ) * inertiaDecay) ^ 2) < inertiaMinVelocity) := by
  have h : ((0.5 : ℝ) * inertiaDecay) ^ 2 = (0.465 : ℝ) ^ 2 := by norm_num [inertiaDecay]
  rw [h, Real.sqrt_sq (by norm_num : (0 : ℝ) ≤ 0.465)]
  norm_num [inertiaMinVelocity]

theorem inertia16_small_stop :
    Real.sqrt (((0.001 : ℝ) * inertiaDecay ^ ((16 : ℝ) / 16)) ^ 2 +
        ((0 : ℝ) * inertiaDecay ^ ((16 : ℝ) / 16)) ^ 2) < inertiaMinVelocity := by
  rw [decay16_eq]
  have h : ((0.001 : ℝ) * 0.93) ^ 2 + ((0 : ℝ) * 0.93) ^ 2 = (0.00093 : ℝ) ^ 2 := by norm_num
  rw [h, Real.sqrt_sq (by norm_num : (0 : ℝ) ≤ 0.00093)]
  norm_num [inertiaMinVelocity]

theorem runInertia16_active :
    (runInertia ⟨0.5, 0, 0, 0, true⟩ [16]).active = true := by
  simp [runInertia, inertiaStep, inertia16_no_stop]

/-- C2 (amended: the decay base in the source is 0.93, not 0.92): an inertia
session started with velocity `(0.5, 0)` px/ms has, after frames totalling
elapsed time `T` and while still running,
`vx = 0.5 * 0.93 ^ (T / 16)` and `vy = 0`; a frame whose decayed velocity
magnitude falls below `minVelocity` stops the loop with velocity reset to
zero, and a stopped loop mutates nothing (every further step is the
identity). -/
theorem inertia_velocity_decay :
    (∀ (px py : ℝ) (dts : List ℝ),
        (runInertia ⟨0.5, 0, px, py, true⟩ dts).active = true →
        (runInertia ⟨0.5, 0, px, py, true⟩ dts).vx =
          0.5 * inertiaDecay ^ (dts.sum / 16) ∧
        (runInertia ⟨0.5, 0, px, py, true⟩ dts).vy = 0) ∧
    (∀ (dt : ℝ) (st : InertiaState), st.active = true →
        Real.sqrt ((st.vx * inertiaDecay ^ (dt / 16)) ^ 2 +
            (st.vy * inertiaDecay ^ (dt / 16)) ^ 2) < inertiaMinVelocity →
        (inertiaStep dt st).active = false ∧ (inertiaStep dt st).vx = 0 ∧
        (inertiaStep dt st).vy = 0) ∧
    (∀ (dt : ℝ) (st : InertiaState), st.active = false → inertiaStep dt st = st) := by
  refine ⟨fun px py dts h => ?_, fun dt st hs hstop => ?_, fun dt st h => ?_⟩
  · obtain ⟨_, hvx, hvy⟩ := runInertia_active_closed dts _ h
    refine ⟨?_, ?_⟩
    · rw [hvx]
    · rw [hvy]
      simp
  · refine ⟨?_, ?_, ?_⟩ <;> simp [inertiaStep, hs, hstop]
  · simp [inertiaStep, h]

/-- Counterexample for C2 as stated: after a single 16 ms inertia frame from
velocity `(0.5, 0)`, the velocity is `0.5 * 0.93`, which differs from the
claimed `0.5 * 0.92 ^ (16 / 16)`. -/
theorem inertia_decay_not_92 :
    (runInertia ⟨0.5, 0, 0, 0, true⟩ [16]).vx ≠ 0.5 * (0.92 : ℝ) ^ ((16 : ℝ) / 16) := by
  have hvx : (runInertia ⟨0.5, 0, 0, 0, true⟩ [16]).vx =
      0.5 * inertiaDecay ^ ((16 : ℝ) / 16) := by
    simp [runInertia, inertiaStep, inertia16_no_stop]
  rw [hvx, decay16_eq, show ((16 : ℝ) / 16) = (1 : ℝ) by norm_num, Real.rpow_one]
  norm_num

/-- Witness for C2 (amended): one 16 ms frame from `(0.5, 0)` keeps the loop
running at the closed-form velocity; one 16 ms frame from `(0.001, 0)` falls
below `minVelocity` and stops with zero velocity; a stopped session is inert.
-/
theorem inertia_velocity_decay_witness :
    (runInertia ⟨0.5, 0, 0, 0, true⟩ [16]).active = true ∧
    (InertiaState.active ⟨0.001, 0, 0, 0, true⟩ = true) ∧
    Real.sqrt ((InertiaState.vx ⟨0.001, 0, 0, 0, true⟩ * inertiaDecay ^ ((16 : ℝ) / 16)) ^ 2 +
        (InertiaState.vy ⟨0.001, 0, 0, 0, true⟩ * inertiaDecay ^ ((16 : ℝ) / 16)) ^ 2) <
      inertiaMinVelocity ∧
    (InertiaState.active ⟨3, 4, 5, 6, false⟩ = false) ∧
    ((runInertia ⟨0.5, 0, 0, 0, true⟩ [16]).vx =
        0.5 * inertiaDecay ^ (([16] : List ℝ).sum / 16) ∧
      (runInertia ⟨0.5, 0, 0, 0, true⟩ [16]).vy = 0) ∧
    ((inertiaStep 16 ⟨0.001, 0, 0, 0, true⟩).active = false ∧
      (inertiaStep 16 ⟨0.001, 0, 0, 0, true⟩).vx = 0 ∧
      (inertiaStep 16 ⟨0.001, 0, 0, 0, true⟩).vy = 0) ∧
    inertiaStep 7 ⟨3, 4, 5, 6, false⟩ = ⟨3, 4, 5, 6, false⟩ :=
  ⟨runInertia16_active, rfl, inertia16_small_stop, rfl,
   inertia_velocity_decay.1 0 0 [16] runInertia16_active,
   inertia_velocity_decay.2.1 16 ⟨0.001, 0, 0, 0, true⟩ rfl inertia16_small_stop,
   inertia_velocity_decay.2.2 7 ⟨3, 4, 5, 6, false⟩ rfl⟩

/-- C5: for every state with positive zoom, `getViewBox` yields
`width = baseWidth / zoom`, `height = baseHeight / zoom`, and an origin whose
centre `(x + width / 2, y + height / 2)` equals
`(baseWidth / 2 - panX, baseHeight / 2 - panY)`. -/
theorem getViewBox_derivation (s : MapState) (hz : 0 < s.currentZoom) :
    (getViewBox s).width = baseWidth / s.currentZoom ∧
    (getViewBox s).height = baseHeight / s.currentZoom ∧
    (getViewBox s).x + (getViewBox s).width / 2 = baseWidth / 2 - s.panX ∧
    (getViewBox s).y + (getViewBox s).height / 2 = baseHeight / 2 - s.panY := by
  refine ⟨rfl, rfl, ?_, ?_⟩ <;> simp [getViewBox] <;> ring

/-- Witness for C5 at zoom `2`, pan `(3, 4)`. -/
theorem getViewBox_derivation_witness :
    0 < (mkState 2 3 4).currentZoom ∧
    ((getViewBox (mkState 2 3 4)).width = baseWidth / (mkState 2 3 4).currentZoom ∧
     (getViewBox (mkState 2 3 4)).height = baseHeight / (mkState 2 3 4).currentZoom ∧
     (getViewBox (mkState 2 3 4)).x + (getViewBox (mkState 2 3 4)).width / 2 =
       baseWidth / 2 - (mkState 2 3 4).panX ∧
     (getViewBox (mkState 2 3 4)).y + (getViewBox (mkState 2 3 4)).height / 2 =
       baseHeight / 2 - (mkState 2 3 4).panY) :=
  ⟨by norm_num [mkState], getViewBox_derivation (mkState 2 3 4) (by norm_num [mkState])⟩

end PosterMap
